import Mathlib

/-!
Verification of the NutriScore backend (src/backend/app.py) against its
natural-language specification.

Modelling conventions.  Python numbers are modelled as exact rationals, so
the fixed conversion factors 2.54 and 0.45359237 are exact; Python round
(half to even) is modelled by pyround.  JSON payload fields are modelled with
Option, and a field that can be present-with-null is modelled with a nested
Option (none = key absent, some none = key present with null, some (some v) =
key present with a value).  Database rows are records; nullable columns are
Option-valued.  The database itself, password hashing and the HTTP framework
are external collaborators per the specification; hashing is modelled by an
injective stand-in function.
-/

/-- Python round(q) for a rational value: round half to even, as used by the
round builtin that calculate_target_calories and calculate_health_score call. -/
def pyround (q : ℚ) : ℤ :=
  if q - ⌊q⌋ < 1/2 then ⌊q⌋
  else if 1/2 < q - ⌊q⌋ then ⌊q⌋ + 1
  else if ⌊q⌋ % 2 = 0 then ⌊q⌋ else ⌊q⌋ + 1

/-- Python round(q, 2): round to two decimal places, half to even. -/
def pyround2 (q : ℚ) : ℚ :=
  (pyround (q * 100) : ℚ) / 100

/-- Python str.strip: drop leading and trailing whitespace.  Defined on the
character list so that it evaluates inside the kernel. -/
def pystrip (s : String) : String :=
  ⟨((s.data.dropWhile Char.isWhitespace).reverse.dropWhile Char.isWhitespace).reverse⟩

/-- Conversion to centimeters, app.py lines 555-556 (source name has a leading
underscore): a value with unit "in" is multiplied by 2.54, any other unit
(including a NULL stored unit) is passed through as centimeters. -/
def to_cm (v : ℚ) (u : Option String) : ℚ :=
  if u = some "in" then v * (254/100) else v

/-- Conversion to kilograms, app.py lines 558-559: a value with unit "lb" is
multiplied by 0.45359237, any other unit is passed through as kilograms. -/
def to_kg (v : ℚ) (u : Option String) : ℚ :=
  if u = some "lb" then v * (45359237/100000000) else v

/-- Goal multiplier table of calculate_target_calories, app.py lines 575-581:
dict lookup with default 1.00.  The argument is an Option because the stored
dietary_goal column may be NULL, in which case the default applies. -/
def multipliers (g : Option String) : ℚ :=
  if g = some "weight_loss" then 8/10
  else if g = some "maintain" then 1
  else if g = some "eat_healthy" then 1
  else if g = some "weight_gain" then 23/20
  else 1

/-- calculate_target_calories, app.py lines 561-586: baseline
22.0 * w_kg + 6.0 * h_cm, goal multiplier applied, rounded to the nearest
multiple of ten via int(round(raw / 10.0) * 10), clamped with
max(1200, min(4000, rounded)). -/
def calculate_target_calories (hv : ℚ) (hu : Option String) (wv : ℚ)
    (wu : Option String) (g : Option String) : ℤ :=
  max 1200 (min 4000
    (10 * pyround ((22 * to_kg wv wu + 6 * to_cm hv hu) * multipliers g / 10)))

/-- Unrealistic-value predicate, app.py lines 588-589 (source name has a
leading underscore). -/
def unrealistic (h w : ℚ) : Bool :=
  decide (h < 100 ∨ h > 250 ∨ w < 30 ∨ w > 300)

/-- calculate_health_score, app.py lines 542-553: returns 0 when
calories <= 0, otherwise 70 + (protein / calories) * 50 + fiber * 5
- sugars * 2.5, rounded to two decimals and clamped via
max(0, min(100, round(score, 2))). -/
def calculate_health_score (calories protein fiber sugars : ℚ) : ℚ :=
  if calories ≤ 0 then 0
  else
    max 0 (min 100 (pyround2 (70 + protein / calories * 50 + fiber * 5 - sugars * (5/2))))

/-!
Specification-side definitions for claim C1 (refinement comparison).  These
follow the wording of spec section 4.1, with units restricted to the spec
domains cm/in and kg/lb.
-/

/-- Spec 4.1: convert height to centimeters with the fixed factor
1 in = 2.54 cm. -/
def toCmSpec (v : ℚ) (u : String) : ℚ :=
  if u = "in" then v * (254/100) else v

/-- Spec 4.1: convert weight to kilograms with the fixed factor
1 lb = 0.45359237 kg. -/
def toKgSpec (v : ℚ) (u : String) : ℚ :=
  if u = "lb" then v * (45359237/100000000) else v

/-- Spec 4.1 goal multiplier: weight_loss 0.80, maintain 1.00,
eat_healthy 1.00, weight_gain 1.15, any unknown goal 1.00. -/
def goalMultiplierSpec (g : String) : ℚ :=
  if g = "weight_loss" then 8/10
  else if g = "maintain" then 1
  else if g = "eat_healthy" then 1
  else if g = "weight_gain" then 23/20
  else 1

/-- Spec 4.1 pipeline: baseline 22.0 * weight_kg + 6.0 * height_cm, goal
multiplier, rounded to the nearest multiple of 10, clamped to [1200, 4000]. -/
def targetCaloriesSpec (hv : ℚ) (hu : String) (wv : ℚ) (wu : String) (g : String) : ℤ :=
  max 1200 (min 4000
    (10 * pyround ((22 * toKgSpec wv wu + 6 * toCmSpec hv hu) * goalMultiplierSpec g / 10)))

/-!
Data model: users, session identities, food items, consumption entries.
-/

/-- A row of the users table, with the columns the handlers read and write.
Nullable columns are Option-valued. -/
structure UserRow where
  user_id : Nat
  username : String
  role : String
  password_hash : Option String := none
  dietary_goal : Option String := none
  target_calories : Option ℤ := none
  height_value : Option ℚ := none
  height_unit : Option String := none
  weight_value : Option ℚ := none
  weight_unit : Option String := none
deriving DecidableEq

/-- The session identity stored by login, app.py line 235. -/
structure SessionUser where
  user_id : Nat
  username : String
  role : String
deriving DecidableEq

/-- A row of the food_items table (the nutrition columns used by the
consumption handlers). -/
structure FoodItem where
  food_id : Nat
  calories : ℚ
  protein : ℚ
  carbs : ℚ
  fat : ℚ
  fiber : ℚ
  sugars : ℚ
deriving DecidableEq

/-- A row of the consumption table. -/
structure ConsumptionEntry where
  user_id : Nat
  food_id : Nat
  date : String
  portion_size : ℚ
  calories : ℚ
  protein : ℚ
  carbs : ℚ
  fat : ℚ
  fiber : ℚ
  sugars : ℚ
  health_score : ℚ
  meal_type : Option String := none
deriving DecidableEq

/-- Python truthiness of an optional numeric value: None and 0 are falsy.
Models the checks not new_row.get("height_value") in app.py lines 387 and
1108. -/
def truthyQ : Option ℚ → Bool
  | none => false
  | some v => decide (v ≠ 0)

/-- Merge of one optional payload field into an optional column, modelling
if k in data and data[k] is not None: new_row[k] = data[k]
(app.py lines 382-384 and 1101-1103). -/
def mergeField (old : Option α) (inc : Option (Option α)) : Option α :=
  match inc with
  | some (some v) => some v
  | _ => old

/-- Same merge for a non-nullable column such as role. -/
def mergeReq (old : α) (inc : Option (Option α)) : α :=
  match inc with
  | some (some v) => v
  | _ => old

/-- Python dict.get(k, default) for a field modelled as
Option (Option a): the default applies only when the key is absent, a key
present with null yields none. -/
def pyGet (x : Option (Option α)) (dflt : α) : Option α :=
  match x with
  | none => some dflt
  | some v => v

/-!
Profile-affecting write handlers.
-/

/-- Outcome of a profile-affecting write: a plain 400, the 400
requires-confirmation response carrying the calorie preview (app.py lines
392-397, 467-472, 910-915, 1112-1117), or a successful write of a user row. -/
inductive WriteResult
  | badRequest (msg : String)
  | requiresConfirmation (preview : ℤ)
  | written (row : UserRow)
deriving DecidableEq

/-- The user row written by a WriteResult, if any. -/
def WriteResult.writtenRow : WriteResult → Option UserRow
  | .written r => some r
  | _ => none

/-- JSON body of PUT /api/profile.  confirm_unrealistic is the truthiness of
that key; otherKeys records whether the dict carries any further key (so that
the dict can be non-empty even when no tracked field is present). -/
structure ProfilePayload where
  dietary_goal : Option (Option String) := none
  height_value : Option (Option ℚ) := none
  height_unit : Option (Option String) := none
  weight_value : Option (Option ℚ) := none
  weight_unit : Option (Option String) := none
  confirm_unrealistic : Bool := false
  otherKeys : Bool := false
deriving DecidableEq

/-- Emptiness of the request dict, modelling if not data (app.py line 366). -/
def ProfilePayload.isEmpty (d : ProfilePayload) : Bool :=
  d.dietary_goal.isNone && d.height_value.isNone && d.height_unit.isNone &&
  d.weight_value.isNone && d.weight_unit.isNone && !d.confirm_unrealistic && !d.otherKeys

/-- The merged new_row of update_profile, app.py lines 381-384. -/
def updProfNewRow (old : UserRow) (d : ProfilePayload) : UserRow :=
  { old with
    dietary_goal := mergeField old.dietary_goal d.dietary_goal,
    height_value := mergeField old.height_value d.height_value,
    height_unit := mergeField old.height_unit d.height_unit,
    weight_value := mergeField old.weight_value d.weight_value,
    weight_unit := mergeField old.weight_unit d.weight_unit }

/-- update_profile, app.py lines 360-428 (the row manipulation; the audit
side effect is modelled separately by update_profile_full).  The old row is
the fetched current row of the session user. -/
def update_profile (old : UserRow) (d : ProfilePayload) : WriteResult :=
  if d.isEmpty then .badRequest "No fields to update"
  else
    let nw := updProfNewRow old d
    if !truthyQ nw.height_value || !truthyQ nw.weight_value then
      .badRequest "Please enter both height and weight to update your goal."
    else
      let hv := nw.height_value.getD 0
      let wv := nw.weight_value.getD 0
      if unrealistic (to_cm hv nw.height_unit) (to_kg wv nw.weight_unit)
          && !d.confirm_unrealistic then
        .requiresConfirmation
          (calculate_target_calories hv nw.height_unit wv nw.weight_unit nw.dietary_goal)
      else
        let tc := calculate_target_calories hv nw.height_unit wv nw.weight_unit nw.dietary_goal
        .written { nw with target_calories := some tc }

/-- JSON body of POST /api/profile/complete.  All five fields are required
keys; values are modelled as parsed. -/
structure CompletePayload where
  height_value : Option ℚ := none
  height_unit : Option String := none
  weight_value : Option ℚ := none
  weight_unit : Option String := none
  dietary_goal : Option String := none
  confirm_unrealistic : Bool := false
deriving DecidableEq

/-- complete_profile, app.py lines 433-512 (row manipulation; audit modelled
separately).  Missing keys give a 400, units and goal are validated, then the
unrealistic gate applies, then the row is written with the computed target. -/
def complete_profile (old : UserRow) (d : CompletePayload) : WriteResult :=
  match d.height_value, d.height_unit, d.weight_value, d.weight_unit, d.dietary_goal with
  | some hv, some hu, some wv, some wu, some g =>
    if ¬(hu = "cm" ∨ hu = "in") then .badRequest "height_unit must be cm or in"
    else if ¬(wu = "kg" ∨ wu = "lb") then .badRequest "weight_unit must be kg or lb"
    else if ¬(g = "weight_gain" ∨ g = "weight_loss" ∨ g = "maintain" ∨ g = "eat_healthy") then
      .badRequest "Invalid dietary_goal"
    else if unrealistic (to_cm hv (some hu)) (to_kg wv (some wu))
        && !d.confirm_unrealistic then
      .requiresConfirmation (calculate_target_calories hv (some hu) wv (some wu) (some g))
    else
      .written { old with
        height_value := some hv, height_unit := some hu,
        weight_value := some wv, weight_unit := some wu,
        dietary_goal := some g,
        target_calories := some (calculate_target_calories hv (some hu) wv (some wu) (some g)) }
  | _, _, _, _, _ => .badRequest "Missing fields"

/-- JSON body of POST /api/users (admin create).  username and the four
profile fields are required keys; dietary_goal and role default when the key
is absent (dict.get with a default). -/
structure CreateUserPayload where
  username : Option String := none
  role : Option String := none
  dietary_goal : Option String := none
  height_value : Option ℚ := none
  height_unit : Option String := none
  weight_value : Option ℚ := none
  weight_unit : Option String := none
  confirm_unrealistic : Bool := false
deriving DecidableEq

/-- create_user, app.py lines 887-947: requires username and the four profile
keys, defaults dietary_goal to maintain and role to user, applies the
unrealistic gate, computes the target and inserts the row.  The INSERT names
no password_hash column, so the stored hash is NULL.  newId stands for the
generated primary key. -/
def create_user (d : CreateUserPayload) (newId : Nat) : WriteResult :=
  match d.username with
  | none => .badRequest "Missing required field: username"
  | some uname =>
    match d.height_value, d.height_unit, d.weight_value, d.weight_unit with
    | some hv, some hu, some wv, some wu =>
      if unrealistic (to_cm hv (some hu)) (to_kg wv (some wu))
          && !d.confirm_unrealistic then
        .requiresConfirmation (calculate_target_calories hv (some hu) wv (some wu)
          (some (d.dietary_goal.getD "maintain")))
      else
        .written
          { user_id := newId, username := uname, role := d.role.getD "user",
            password_hash := none,
            dietary_goal := some (d.dietary_goal.getD "maintain"),
            target_calories :=
              some (calculate_target_calories hv (some hu) wv (some wu)
                (some (d.dietary_goal.getD "maintain"))),
            height_value := some hv, height_unit := some hu,
            weight_value := some wv, weight_unit := some wu }
    | _, _, _, _ => .badRequest "Missing fields"

/-- JSON body of PUT /api/users/id (admin update). -/
structure AdminUpdatePayload where
  role : Option (Option String) := none
  dietary_goal : Option (Option String) := none
  height_value : Option (Option ℚ) := none
  height_unit : Option (Option String) := none
  weight_value : Option (Option ℚ) := none
  weight_unit : Option (Option String) := none
  confirm_unrealistic : Bool := false
  otherKeys : Bool := false
deriving DecidableEq

/-- Emptiness of the admin update dict, app.py line 1082. -/
def AdminUpdatePayload.isEmpty (d : AdminUpdatePayload) : Bool :=
  d.role.isNone && d.dietary_goal.isNone && d.height_value.isNone &&
  d.height_unit.isNone && d.weight_value.isNone && d.weight_unit.isNone &&
  !d.confirm_unrealistic && !d.otherKeys

/-- inputs_changed of update_user, app.py line 1106: any of the five
calorie-relevant keys is present in the payload (even with a null value). -/
def AdminUpdatePayload.inputsChanged (d : AdminUpdatePayload) : Bool :=
  d.dietary_goal.isSome || d.height_value.isSome || d.height_unit.isSome ||
  d.weight_value.isSome || d.weight_unit.isSome

/-- The merged new_row of update_user, app.py lines 1100-1103. -/
def admNewRow (old : UserRow) (d : AdminUpdatePayload) : UserRow :=
  { old with
    role := mergeReq old.role d.role,
    dietary_goal := mergeField old.dietary_goal d.dietary_goal,
    height_value := mergeField old.height_value d.height_value,
    height_unit := mergeField old.height_unit d.height_unit,
    weight_value := mergeField old.weight_value d.weight_value,
    weight_unit := mergeField old.weight_unit d.weight_unit }

/-- update_user, app.py lines 1077-1153 (row manipulation; audit modelled
separately).  The unrealistic gate and the target recomputation run only when
inputs_changed holds; otherwise the merged row is written as is. -/
def update_user (old : UserRow) (d : AdminUpdatePayload) : WriteResult :=
  if d.isEmpty then .badRequest "No fields to update"
  else
    let nw := admNewRow old d
    if d.inputsChanged then
      if !truthyQ nw.height_value || !truthyQ nw.weight_value then
        .badRequest "Please set height and weight before setting a goal."
      else
        let hv := nw.height_value.getD 0
        let wv := nw.weight_value.getD 0
        if unrealistic (to_cm hv nw.height_unit) (to_kg wv nw.weight_unit)
            && !d.confirm_unrealistic then
          .requiresConfirmation
            (calculate_target_calories hv nw.height_unit wv nw.weight_unit nw.dietary_goal)
        else
          let tc := calculate_target_calories hv nw.height_unit wv nw.weight_unit nw.dietary_goal
          .written { nw with target_calories := some tc }
    else
      .written nw

/-!
Consumption handlers.
-/

/-- Error responses of the consumption endpoints. -/
inductive ApiErr
  | badRequest (msg : String)
  | forbidden (msg : String)
  | notFound (msg : String)
  | serverError (msg : String)
deriving DecidableEq

/-- JSON body of POST /api/consumption.  food_id and date are the required
keys; portion_size defaults to 1.0; a client may also send user_id, which is
honoured only for admins. -/
structure ConsumptionPayload where
  user_id : Option Nat := none
  food_id : Option Nat := none
  date : Option String := none
  portion_size : Option ℚ := none
  meal_type : Option String := none
deriving DecidableEq

/-- create_consumption, app.py lines 1179-1251: requires food_id and date,
resolves the acting user (an admin must supply user_id, any other role is
pinned to the session identity), resolves the food item, scales its six
nutrition fields by portion_size, computes the health score, and inserts the
snapshot row. -/
def create_consumption (cu : SessionUser) (d : ConsumptionPayload)
    (foods : List FoodItem) : Except ApiErr ConsumptionEntry :=
  match d.food_id, d.date with
  | some fid, some date =>
    let uid? : Except ApiErr Nat :=
      if cu.role = "admin" then
        match d.user_id with
        | some u => .ok u
        | none => .error (.badRequest "Missing field: user_id")
      else .ok cu.user_id
    match uid? with
    | .error e => .error e
    | .ok uid =>
      let p := d.portion_size.getD 1
      match foods.find? (fun f => f.food_id = fid) with
      | none => .error (.notFound "Food item not found")
      | some food =>
        .ok { user_id := uid, food_id := fid, date := date, portion_size := p,
              calories := food.calories * p, protein := food.protein * p,
              carbs := food.carbs * p, fat := food.fat * p,
              fiber := food.fiber * p, sugars := food.sugars * p,
              health_score := calculate_health_score (food.calories * p)
                (food.protein * p) (food.fiber * p) (food.sugars * p),
              meal_type := d.meal_type }
  | _, _ => .error (.badRequest "Missing fields: food_id, date")

/-- JSON body of PUT /api/consumption/id.  The handler accepts any of the
ten listed keys directly from the payload (app.py line 1378); meal_type may
be set to null.  otherKeys records additional dict keys that are not in the
list. -/
structure ConsumptionUpdate where
  date : Option String := none
  portion_size : Option ℚ := none
  calories : Option ℚ := none
  protein : Option ℚ := none
  carbs : Option ℚ := none
  fat : Option ℚ := none
  fiber : Option ℚ := none
  sugars : Option ℚ := none
  health_score : Option ℚ := none
  meal_type : Option (Option String) := none
  otherKeys : Bool := false
deriving DecidableEq

/-- Emptiness of the update dict, app.py line 1338. -/
def ConsumptionUpdate.isEmpty (d : ConsumptionUpdate) : Bool :=
  d.date.isNone && d.portion_size.isNone && d.calories.isNone &&
  d.protein.isNone && d.carbs.isNone && d.fat.isNone && d.fiber.isNone &&
  d.sugars.isNone && d.health_score.isNone && d.meal_type.isNone && !d.otherKeys

/-- Whether any of the ten updatable keys is present, app.py lines 1376-1384
(otherwise the handler answers "No valid fields to update"). -/
def ConsumptionUpdate.hasValidField (d : ConsumptionUpdate) : Bool :=
  d.date.isSome || d.portion_size.isSome || d.calories.isSome ||
  d.protein.isSome || d.carbs.isSome || d.fat.isSome || d.fiber.isSome ||
  d.sugars.isSome || d.health_score.isSome || d.meal_type.isSome

/-- The recomputation block of update_consumption, app.py lines 1354-1373:
when portion_size is in the payload, the six nutrition values and the health
score are recomputed from the food item and written over the payload keys. -/
def withRecompute (d : ConsumptionUpdate) (food : FoodItem) (p : ℚ) : ConsumptionUpdate :=
  { d with
    calories := some (food.calories * p),
    protein := some (food.protein * p),
    carbs := some (food.carbs * p),
    fat := some (food.fat * p),
    fiber := some (food.fiber * p),
    sugars := some (food.sugars * p),
    health_score := some (calculate_health_score (food.calories * p)
      (food.protein * p) (food.fiber * p) (food.sugars * p)) }

/-- Application of the present payload keys to the stored row, modelling the
dynamically built UPDATE statement of app.py lines 1376-1390. -/
def applyUpdate (e : ConsumptionEntry) (d : ConsumptionUpdate) : ConsumptionEntry :=
  { e with
    date := d.date.getD e.date,
    portion_size := d.portion_size.getD e.portion_size,
    calories := d.calories.getD e.calories,
    protein := d.protein.getD e.protein,
    carbs := d.carbs.getD e.carbs,
    fat := d.fat.getD e.fat,
    fiber := d.fiber.getD e.fiber,
    sugars := d.sugars.getD e.sugars,
    health_score := d.health_score.getD e.health_score,
    meal_type := d.meal_type.getD e.meal_type }

/-- update_consumption, app.py lines 1330-1393: empty-dict check, owner-or-
admin check, recomputation of the nutrition snapshot when portion_size is in
the payload (a missing food row would make the Python crash into the 500
handler), then the dynamic UPDATE.  The entry argument is the fetched row. -/
def update_consumption (cu : SessionUser) (entry : ConsumptionEntry)
    (d : ConsumptionUpdate) (foods : List FoodItem) : Except ApiErr ConsumptionEntry :=
  if d.isEmpty then .error (.badRequest "No fields to update")
  else if cu.role ≠ "admin" ∧ entry.user_id ≠ cu.user_id then
    .error (.forbidden "You do not have permission")
  else
    match d.portion_size with
    | some p =>
      match foods.find? (fun f => f.food_id = entry.food_id) with
      | none => .error (.serverError "food item lookup returned no row")
      | some food =>
        let d2 := withRecompute d food p
        if !d2.hasValidField then .error (.badRequest "No valid fields to update")
        else .ok (applyUpdate entry d2)
    | none =>
      if !d.hasValidField then .error (.badRequest "No valid fields to update")
      else .ok (applyUpdate entry d)

/-!
Profile-change audit, app.py lines 591-612.
-/

/-- The six tracked columns of the audit, app.py line 593. -/
inductive TrackedField
  | height_value
  | height_unit
  | weight_value
  | weight_unit
  | dietary_goal
  | target_calories
deriving DecidableEq

/-- The tracked columns in source order. -/
def trackedFields : List TrackedField :=
  [.height_value, .height_unit, .weight_value, .weight_unit, .dietary_goal, .target_calories]

/-- One row of user_profile_changes: target user, acting user and role, and
the changed-field map of from/to pairs. -/
structure AuditRecord where
  user_id : Nat
  changed_by_user_id : Nat
  changed_by_role : String
  changed_fields : List (TrackedField × String × String)
deriving DecidableEq

/-- The tracked fields whose stringified old and new values differ, app.py
lines 592-595.  Rows enter as their str() images per field. -/
def changedFields (old new : TrackedField → String) : List TrackedField :=
  trackedFields.filter (fun k => old k ≠ new k)

/-- audit_profile_change, app.py lines 591-612 (source name has a leading
underscore), as the list of audit rows it inserts: none when no tracked field
differs, otherwise exactly one row carrying the differing fields with their
from/to values. -/
def audit_profile_change (target : Nat) (actor : SessionUser)
    (old new : TrackedField → String) : List AuditRecord :=
  let changed := (changedFields old new).map (fun k => (k, old k, new k))
  if changed.isEmpty then []
  else [{ user_id := target, changed_by_user_id := actor.user_id,
          changed_by_role := actor.role, changed_fields := changed }]

/-- Python str() of a nullable string column (str(None) is the four-letter
string None, so a NULL and the literal string None collide, exactly as in the
source comparison). -/
def optStr : Option String → String
  | none => "None"
  | some s => s

/-- Python str() of a nullable numeric column, via the decimal string of the
rational value. -/
def optQStr : Option ℚ → String
  | none => "None"
  | some v => toString v

/-- Python str() of the nullable integer target_calories column. -/
def optIntStr : Option ℤ → String
  | none => "None"
  | some v => toString v

/-- The str() images of the six tracked columns of a user row, as compared by
audit_profile_change. -/
def UserRow.tracked (r : UserRow) : TrackedField → String
  | .height_value => optQStr r.height_value
  | .height_unit => optStr r.height_unit
  | .weight_value => optQStr r.weight_value
  | .weight_unit => optStr r.weight_unit
  | .dietary_goal => optStr r.dietary_goal
  | .target_calories => optIntStr r.target_calories

/-!
Handler outcomes with the audit side effect, for the error-propagation
claims.  auditFails states that the audit INSERT (when attempted) raises a
storage exception.
-/

/-- Final HTTP outcome of a profile-affecting handler: status code and the
user row that was written, if any. -/
structure FullOutcome where
  status : Nat
  written : Option UserRow
deriving DecidableEq

/-- update_profile with its audit call, app.py lines 405-430: the audit runs
after the UPDATE, outside any inner try, so an audit exception reaches the
outer handler and becomes a 500 even though the row was already written.  The
audit attempts its INSERT only when some tracked field differs. -/
def update_profile_full (old : UserRow) (d : ProfilePayload) (auditFails : Bool) : FullOutcome :=
  match update_profile old d with
  | .badRequest _ => { status := 400, written := none }
  | .requiresConfirmation _ => { status := 400, written := none }
  | .written row =>
    if auditFails && !(changedFields old.tracked row.tracked).isEmpty then
      { status := 500, written := some row }
    else
      { status := 200, written := some row }

/-- update_user with its audit call, app.py lines 1124-1155: same shape as
update_profile_full, the audit exception propagates to the 500 handler. -/
def update_user_full (old : UserRow) (d : AdminUpdatePayload) (auditFails : Bool) : FullOutcome :=
  match update_user old d with
  | .badRequest _ => { status := 400, written := none }
  | .requiresConfirmation _ => { status := 400, written := none }
  | .written row =>
    if auditFails && !(changedFields old.tracked row.tracked).isEmpty then
      { status := 500, written := some row }
    else
      { status := 200, written := some row }

/-- complete_profile with its audit call, app.py lines 505-512: the audit is
wrapped in try/except pass, so an audit exception never changes the
response. -/
def complete_profile_full (old : UserRow) (d : CompletePayload) (auditFails : Bool) : FullOutcome :=
  match complete_profile old d with
  | .badRequest _ => { status := 400, written := none }
  | .requiresConfirmation _ => { status := 400, written := none }
  | .written row =>
    let _auditAttempt := auditFails
    { status := 200, written := some row }

/-!
Authentication: password hashes, login, admin bootstrap.
-/

/-- Stand-in for werkzeug generate_password_hash: hashing is an external
collaborator per spec section 1, modelled as an injective deterministic
function. -/
def generate_password_hash (pw : String) : String :=
  "pbkdf2-sha256-" ++ pw

/-- Stand-in for werkzeug check_password_hash, matching the stand-in hash. -/
def check_password_hash (h pw : String) : Bool :=
  h = generate_password_hash pw

/-- Result of POST /api/auth/login. -/
inductive LoginResult
  | badRequest (msg : String)
  | invalidCredentials
  | ok (s : SessionUser)
deriving DecidableEq

/-- login, app.py lines 199-238: strips the username, rejects empty
username or password with a 400, then looks the user up; a missing row, a
NULL password_hash, or a failed hash check all yield the one generic 401
response "Invalid username or password". -/
def login (username password : String) (users : List UserRow) : LoginResult :=
  let uname := pystrip username
  if uname = "" ∨ password = "" then .badRequest "Username and password are required"
  else
    match users.find? (fun x => x.username = uname) with
    | none => .invalidCredentials
    | some u =>
      match u.password_hash with
      | none => .invalidCredentials
      | some h =>
        if check_password_hash h password then .ok { user_id := u.user_id, username := u.username, role := u.role }
        else .invalidCredentials

/-- The users table as seen by the bootstrap, ordered by user_id. -/
structure AdminDB where
  users : List UserRow
deriving DecidableEq

/-- The body of ensure_admin_bootstrap, app.py lines 163-187, before its
try/except: a failed connection raises; otherwise the first admin row is
fetched, an admin is inserted (with a hash of the bootstrap password) when
none exists, a missing admin hash is set, and demo users with NULL hashes
receive the demo password hash. -/
def bootstrap_body (conn : Except String AdminDB) (adminPw demoPw : String)
    (newId : Nat) : Except String AdminDB :=
  match conn with
  | .error e => .error e
  | .ok db =>
    let db1 : AdminDB :=
      match db.users.find? (fun u => u.role = "admin") with
      | none =>
        { users := db.users ++
            [{ user_id := newId, username := "admin", role := "admin",
               password_hash := some (generate_password_hash adminPw),
               dietary_goal := some "maintain", target_calories := some 2000 }] }
      | some a =>
        match a.password_hash with
        | none =>
          { users := db.users.map (fun u =>
              if u.user_id = a.user_id then
                { u with password_hash := some (generate_password_hash adminPw) }
              else u) }
        | some _ => db
    .ok { users := db1.users.map (fun u =>
            if u.password_hash = none ∧ u.username ≠ "admin" then
              { u with password_hash := some (generate_password_hash demoPw) }
            else u) }

/-- ensure_admin_bootstrap, app.py lines 158-190: the whole body sits in
try/except pass, so a storage failure leaves the database untouched and no
exception escapes (the return type has no error case). -/
def ensure_admin_bootstrap (conn : Except String AdminDB) (adminPw demoPw : String)
    (newId : Nat) : Option AdminDB :=
  (bootstrap_body conn adminPw demoPw newId).toOption

/-- The before_request hook plus a handler, app.py lines 192-196: the
bootstrap runs first and, because it cannot raise, the primary response is
whatever the handler produces. -/
def request_after_bootstrap (conn : Except String AdminDB) (adminPw demoPw : String)
    (newId : Nat) (primary : FullOutcome) : FullOutcome :=
  let _bootstrapOutcome := ensure_admin_bootstrap conn adminPw demoPw newId
  primary

/-!
Claim theorems.
-/

/-- C1: for every height with unit in cm/in, weight with unit in kg/lb, and
goal string, calculate_target_calories performs exactly the spec 4.1 pipeline
(fixed conversion factors, baseline 22.0 x weight_kg + 6.0 x height_cm, goal
multiplier with default 1.00, round to the nearest multiple of 10, clamp to
[1200, 4000]); in particular 170 cm, 70 kg, maintain gives 2560. -/
theorem C1_target_calories_spec :
    (∀ (hv wv : ℚ) (hu wu g : String),
        (hu = "cm" ∨ hu = "in") → (wu = "kg" ∨ wu = "lb") →
        calculate_target_calories hv (some hu) wv (some wu) (some g) =
          targetCaloriesSpec hv hu wv wu g) ∧
    calculate_target_calories 170 (some "cm") 70 (some "kg") (some "maintain") = 2560 := by
  constructor
  · intro hv wv hu wu g _ _
    simp [calculate_target_calories, targetCaloriesSpec, to_cm, toCmSpec, to_kg, toKgSpec,
      multipliers, goalMultiplierSpec]
  · have h1 : (22 * to_kg 70 (some "kg") + 6 * to_cm 170 (some "cm")) *
        multipliers (some "maintain") / 10 = 256 := by
      simp [to_cm, to_kg, multipliers]
      norm_num
    unfold calculate_target_calories
    rw [h1]
    have h2 : pyround 256 = 256 := by norm_num [pyround]
    rw [h2]
    norm_num

/-- Witness for C1 at a concrete input with imperial units. -/
theorem C1_target_calories_spec_witness :
    calculate_target_calories 70 (some "in") 150 (some "lb") (some "weight_gain") =
      targetCaloriesSpec 70 "in" 150 "lb" "weight_gain" :=
  C1_target_calories_spec.1 70 150 "in" "lb" "weight_gain" (Or.inr rfl) (Or.inr rfl)

/-- C2: calculate_health_score returns 0 whenever calories <= 0, otherwise
70 + 50 x (protein/calories) + 5 x fiber - 2.5 x sugars rounded to two
decimals and clamped to [0, 100]; the result always lies in [0, 100]; and
calculate_health_score 100 10 5 2 = 95. -/
theorem C2_health_score_spec :
    (∀ c p f s : ℚ,
        (c ≤ 0 → calculate_health_score c p f s = 0) ∧
        (0 < c → calculate_health_score c p f s =
            max 0 (min 100 (pyround2 (70 + 50 * (p / c) + 5 * f - 5/2 * s)))) ∧
        0 ≤ calculate_health_score c p f s ∧
        calculate_health_score c p f s ≤ 100) ∧
    calculate_health_score 100 10 5 2 = 95 := by
  constructor
  · intro c p f s
    refine ⟨fun hc => by simp only [calculate_health_score, if_pos hc], fun hc => ?_, ?_, ?_⟩
    · simp only [calculate_health_score, if_neg (not_le.mpr hc)]
      have harg : 70 + p / c * 50 + f * 5 - s * (5/2) =
          70 + 50 * (p / c) + 5 * f - 5/2 * s := by ring
      rw [harg]
    · by_cases hc : c ≤ 0
      · simp only [calculate_health_score, if_pos hc]
        exact le_rfl
      · simp only [calculate_health_score, if_neg hc]
        exact le_max_left _ _
    · by_cases hc : c ≤ 0
      · simp only [calculate_health_score, if_pos hc]; norm_num
      · simp only [calculate_health_score, if_neg hc]
        exact max_le (by norm_num) (min_le_left _ _)
  · norm_num [calculate_health_score, pyround2, pyround]

/-- Witness for C2: the zero-calorie branch, the formula branch, and both
bounds at concrete inputs. -/
theorem C2_health_score_spec_witness :
    calculate_health_score 0 7 3 1 = 0 ∧
    calculate_health_score 200 20 1 2 =
      max 0 (min 100 (pyround2 (70 + 50 * ((20 : ℚ) / 200) + 5 * 1 - 5/2 * 2))) ∧
    0 ≤ calculate_health_score (-5) 1 2 3 ∧
    calculate_health_score 50 0 100 0 ≤ 100 :=
  ⟨(C2_health_score_spec.1 0 7 3 1).1 le_rfl,
   (C2_health_score_spec.1 200 20 1 2).2.1 (by norm_num),
   (C2_health_score_spec.1 (-5) 1 2 3).2.2.1,
   (C2_health_score_spec.1 50 0 100 0).2.2.2⟩

/-- C9: for all height, weight, unit and goal inputs (including NULL units
and goals), calculate_target_calories returns a multiple of 10 inside
[1200, 4000]. -/
theorem C9_target_in_range :
    ∀ (hv wv : ℚ) (hu wu g : Option String),
      (10 : ℤ) ∣ calculate_target_calories hv hu wv wu g ∧
      1200 ≤ calculate_target_calories hv hu wv wu g ∧
      calculate_target_calories hv hu wv wu g ≤ 4000 := by
  intro hv wv hu wu g
  refine ⟨?_, le_max_left _ _, max_le (by norm_num) (min_le_left _ _)⟩
  unfold calculate_target_calories
  rcases max_cases (1200 : ℤ)
      (min 4000 (10 * pyround ((22 * to_kg wv wu + 6 * to_cm hv hu) * multipliers g / 10))) with
    ⟨h, _⟩ | ⟨h, _⟩ <;> rw [h]
  · norm_num
  · rcases min_cases (4000 : ℤ)
        (10 * pyround ((22 * to_kg wv wu + 6 * to_cm hv hu) * multipliers g / 10)) with
      ⟨h2, _⟩ | ⟨h2, _⟩ <;> rw [h2]
    · norm_num
    · exact dvd_mul_right 10 _

/-- C4: a non-admin creating a consumption entry has user_id forced to the
session identity; the payload user_id field is ignored, so two requests that
differ only in it produce the same result. -/
theorem C4_non_admin_pinned :
    ∀ (cu : SessionUser) (d : ConsumptionPayload) (foods : List FoodItem) (uid : Option Nat),
      cu.role ≠ "admin" →
      (create_consumption cu { d with user_id := uid } foods = create_consumption cu d foods ∧
       ∀ e, create_consumption cu d foods = .ok e → e.user_id = cu.user_id) := by
  intro cu d foods uid hrole
  obtain ⟨duid, dfid, ddate, dps, dmt⟩ := d
  constructor
  · cases dfid <;> cases ddate <;> simp [create_consumption, hrole]
  · intro e he
    cases dfid <;> cases ddate <;> simp [create_consumption, hrole] at he
    split at he
    · exact absurd he (by simp)
    · rw [Except.ok.injEq] at he
      rw [← he]

/-- Witness for C4: a concrete non-admin request with a foreign user_id in
the payload. -/
theorem C4_non_admin_pinned_witness :
    create_consumption { user_id := 2, username := "bob", role := "user" }
        { user_id := some 9, food_id := some 1, date := some "2025-01-02" }
        [{ food_id := 1, calories := 100, protein := 5, carbs := 10, fat := 2,
           fiber := 3, sugars := 4 }] =
      create_consumption { user_id := 2, username := "bob", role := "user" }
        { food_id := some 1, date := some "2025-01-02" }
        [{ food_id := 1, calories := 100, protein := 5, carbs := 10, fat := 2,
           fiber := 3, sugars := 4 }] :=
  (C4_non_admin_pinned { user_id := 2, username := "bob", role := "user" }
    { food_id := some 1, date := some "2025-01-02" }
    [{ food_id := 1, calories := 100, protein := 5, carbs := 10, fat := 2,
       fiber := 3, sugars := 4 }] (some 9) (by simp)).1

/-- C5: updating an entry with a new portion_size yields the same six
nutrition fields and the same health_score as freshly creating an entry for
the same food item with that portion_size. -/
theorem C5_update_matches_create :
    ∀ (cu cu2 : SessionUser) (entry : ConsumptionEntry) (food : FoodItem)
      (foods : List FoodItem) (p : ℚ) (dt : String) (mt : Option String)
      (e1 e2 : ConsumptionEntry),
      (cu.role = "admin" ∨ entry.user_id = cu.user_id) →
      foods.find? (fun f => f.food_id = entry.food_id) = some food →
      cu2.role ≠ "admin" →
      update_consumption cu entry { portion_size := some p } foods = .ok e1 →
      create_consumption cu2
        { food_id := some entry.food_id, date := some dt,
          portion_size := some p, meal_type := mt } foods = .ok e2 →
      e1.calories = e2.calories ∧ e1.protein = e2.protein ∧ e1.carbs = e2.carbs ∧
      e1.fat = e2.fat ∧ e1.fiber = e2.fiber ∧ e1.sugars = e2.sugars ∧
      e1.health_score = e2.health_score := by
  intro cu cu2 entry food foods p dt mt e1 e2 hperm hfind hrole2 hupd hcre
  have hauth : ¬(cu.role ≠ "admin" ∧ entry.user_id ≠ cu.user_id) := by
    rcases hperm with h | h
    · intro hc; exact hc.1 h
    · intro hc; exact hc.2 h
  simp [update_consumption, hauth, hfind, withRecompute, applyUpdate,
    ConsumptionUpdate.isEmpty, ConsumptionUpdate.hasValidField] at hupd
  simp [create_consumption, hrole2, hfind] at hcre
  rw [← hupd, ← hcre]
  simp

/-- Concrete food row shared by the C5 witness. -/
def c5food : FoodItem :=
  { food_id := 1, calories := 100, protein := 5, carbs := 10, fat := 2,
    fiber := 3, sugars := 4 }

/-- Concrete stored consumption row for the C5 witness. -/
def c5entry : ConsumptionEntry :=
  { user_id := 2, food_id := 1, date := "2025-01-01", portion_size := 1,
    calories := 100, protein := 5, carbs := 10, fat := 2, fiber := 3,
    sugars := 4, health_score := 85 }

/-- The owner of the C5 entry. -/
def c5user : SessionUser := { user_id := 2, username := "bob", role := "user" }

/-- The entry produced by both the update and the fresh create at portion 2. -/
def c5result : ConsumptionEntry :=
  { user_id := 2, food_id := 1, date := "2025-01-01", portion_size := 2,
    calories := 100 * 2, protein := 5 * 2, carbs := 10 * 2, fat := 2 * 2,
    fiber := 3 * 2, sugars := 4 * 2,
    health_score := calculate_health_score (100 * 2) (5 * 2) (3 * 2) (4 * 2) }

/-- Witness for C5 at a concrete entry, food and portion. -/
theorem C5_update_matches_create_witness :
    (update_consumption c5user c5entry { portion_size := some 2 } [c5food] =
      Except.ok c5result) ∧
    (create_consumption c5user
        { food_id := some 1, date := some "2025-01-01", portion_size := some 2 } [c5food] =
      Except.ok c5result) ∧
    (c5result.calories = c5result.calories ∧ c5result.protein = c5result.protein ∧
      c5result.carbs = c5result.carbs ∧ c5result.fat = c5result.fat ∧
      c5result.fiber = c5result.fiber ∧ c5result.sugars = c5result.sugars ∧
      c5result.health_score = c5result.health_score) := by
  have h1 : update_consumption c5user c5entry { portion_size := some 2 } [c5food] =
      Except.ok c5result := by
    simp [update_consumption, c5user, c5entry, c5food, c5result,
      ConsumptionUpdate.isEmpty, ConsumptionUpdate.hasValidField,
      withRecompute, applyUpdate, List.find?]
  have h2 : create_consumption c5user
      { food_id := some 1, date := some "2025-01-01", portion_size := some 2 } [c5food] =
      Except.ok c5result := by
    simp [create_consumption, c5user, c5food, c5result, List.find?]
  refine ⟨h1, h2, ?_⟩
  exact C5_update_matches_create c5user c5user c5entry c5food [c5food] 2 "2025-01-01"
    none c5result c5result (Or.inr rfl) (by simp [c5entry, c5food, List.find?])
    (by simp [c5user]) h1 h2

/-- Concrete food row for the C6 evaluation. -/
def c6food : FoodItem :=
  { food_id := 1, calories := 100, protein := 5, carbs := 10, fat := 2,
    fiber := 3, sugars := 4 }

/-- Concrete stored consumption row for the C6 evaluation; its snapshot is
consistent (portion 1, fields equal to the food fields). -/
def c6entry : ConsumptionEntry :=
  { user_id := 2, food_id := 1, date := "2025-01-01", portion_size := 1,
    calories := 100, protein := 5, carbs := 10, fat := 2, fiber := 3,
    sugars := 4, health_score := 85, meal_type := some "lunch" }

/-- The owner of the C6 entry. -/
def c6user : SessionUser := { user_id := 2, username := "bob", role := "user" }

/-- A payload that sets calories directly without touching portion_size. -/
def c6patch : ConsumptionUpdate := { calories := some 999 }

/-- C6: the update handler accepts the nutrition columns directly from the
payload when portion_size is absent (app.py line 1378), so a single update
can store calories that are not food calories x portion_size, breaking the
snapshot invariant the handler docstring and the spec state. -/
theorem C6_direct_nutrition_overwrite :
    update_consumption c6user c6entry c6patch [c6food] =
      .ok { c6entry with calories := 999 } ∧
    ({ c6entry with calories := 999 } : ConsumptionEntry).calories ≠
      c6food.calories * ({ c6entry with calories := 999 } : ConsumptionEntry).portion_size := by
  constructor
  · simp [update_consumption, c6user, c6entry, c6patch, ConsumptionUpdate.isEmpty,
      ConsumptionUpdate.hasValidField, applyUpdate]
  · show (999 : ℚ) ≠ c6food.calories * c6entry.portion_size
    norm_num [c6food, c6entry]

/-- Stored row of a user whose profile is already unrealistic (90 cm) for the
C3 counterexample. -/
def c3row : UserRow :=
  { user_id := 7, username := "tiny", role := "user",
    dietary_goal := some "maintain", target_calories := some 2000,
    height_value := some 90, height_unit := some "cm",
    weight_value := some 70, weight_unit := some "kg" }

/-- Admin update payload touching only the role key. -/
def c3payload : AdminUpdatePayload := { role := some (some "admin") }

/-- C3 counterexample: an admin user update whose payload touches only role
is a profile-affecting write, the effective height converts to 90 cm < 100,
no confirmation flag is passed, and yet update_user writes the user row
instead of rejecting with the requires-confirmation response. -/
theorem C3_counterexample :
    unrealistic (to_cm (c3row.height_value.getD 0) c3row.height_unit)
        (to_kg (c3row.weight_value.getD 0) c3row.weight_unit) = true ∧
    c3payload.confirm_unrealistic = false ∧
    (update_user c3row c3payload).writtenRow = some { c3row with role := "admin" } := by
  refine ⟨?_, rfl, ?_⟩
  · simp [c3row, to_cm, to_kg, unrealistic]
    norm_num
  · simp [update_user, c3row, c3payload, AdminUpdatePayload.isEmpty,
      AdminUpdatePayload.inputsChanged, admNewRow, mergeReq, mergeField,
      WriteResult.writtenRow]

/-- C3 amended: the unrealistic-confirmation gate holds on every
profile-affecting write that actually evaluates the guard, which the code
reaches so long as the effective height and weight are present and non-zero
(otherwise a plain 400 is returned first) and, for the admin user update,
the payload carries at least one of the five calorie-relevant keys (a
payload touching only role writes the row without the guard, and the
completion and admin-create handlers also require their mandatory keys and,
for completion, valid units and goal).  When the gate fires the handler
answers the 400 requires-confirmation response with the calorie preview and
writes no user row.  Height 90 cm or weight 310 kg always trips the
predicate, 170 cm with 70 kg never does. -/
theorem C3_unrealistic_gate :
    (∀ (old : UserRow) (d : ProfilePayload),
        d.isEmpty = false →
        truthyQ (updProfNewRow old d).height_value = true →
        truthyQ (updProfNewRow old d).weight_value = true →
        unrealistic (to_cm ((updProfNewRow old d).height_value.getD 0) (updProfNewRow old d).height_unit)
            (to_kg ((updProfNewRow old d).weight_value.getD 0) (updProfNewRow old d).weight_unit) = true →
        d.confirm_unrealistic = false →
        update_profile old d = .requiresConfirmation
            (calculate_target_calories ((updProfNewRow old d).height_value.getD 0)
              (updProfNewRow old d).height_unit ((updProfNewRow old d).weight_value.getD 0)
              (updProfNewRow old d).weight_unit (updProfNewRow old d).dietary_goal) ∧
        (update_profile old d).writtenRow = none) ∧
    (∀ (old : UserRow) (d : CompletePayload) (hv wv : ℚ) (hu wu g : String),
        d.height_value = some hv → d.height_unit = some hu →
        d.weight_value = some wv → d.weight_unit = some wu →
        d.dietary_goal = some g →
        (hu = "cm" ∨ hu = "in") → (wu = "kg" ∨ wu = "lb") →
        (g = "weight_gain" ∨ g = "weight_loss" ∨ g = "maintain" ∨ g = "eat_healthy") →
        unrealistic (to_cm hv (some hu)) (to_kg wv (some wu)) = true →
        d.confirm_unrealistic = false →
        complete_profile old d = .requiresConfirmation
            (calculate_target_calories hv (some hu) wv (some wu) (some g)) ∧
        (complete_profile old d).writtenRow = none) ∧
    (∀ (d : CreateUserPayload) (newId : Nat) (uname : String) (hv wv : ℚ) (hu wu : String),
        d.username = some uname →
        d.height_value = some hv → d.height_unit = some hu →
        d.weight_value = some wv → d.weight_unit = some wu →
        unrealistic (to_cm hv (some hu)) (to_kg wv (some wu)) = true →
        d.confirm_unrealistic = false →
        create_user d newId = .requiresConfirmation
            (calculate_target_calories hv (some hu) wv (some wu)
              (some (d.dietary_goal.getD "maintain"))) ∧
        (create_user d newId).writtenRow = none) ∧
    (∀ (old : UserRow) (d : AdminUpdatePayload),
        d.isEmpty = false →
        d.inputsChanged = true →
        truthyQ (admNewRow old d).height_value = true →
        truthyQ (admNewRow old d).weight_value = true →
        unrealistic (to_cm ((admNewRow old d).height_value.getD 0) (admNewRow old d).height_unit)
            (to_kg ((admNewRow old d).weight_value.getD 0) (admNewRow old d).weight_unit) = true →
        d.confirm_unrealistic = false →
        update_user old d = .requiresConfirmation
            (calculate_target_calories ((admNewRow old d).height_value.getD 0)
              (admNewRow old d).height_unit ((admNewRow old d).weight_value.getD 0)
              (admNewRow old d).weight_unit (admNewRow old d).dietary_goal) ∧
        (update_user old d).writtenRow = none) ∧
    (∀ w : ℚ, unrealistic 90 w = true) ∧
    (∀ h : ℚ, unrealistic h 310 = true) ∧
    unrealistic 170 70 = false := by
  refine ⟨?_, ?_, ?_, ?_, ?_, ?_, ?_⟩
  · intro old d h1 h2 h3 h4 h5
    constructor <;>
      simp [update_profile, h1, h2, h3, h4, h5, WriteResult.writtenRow]
  · intro old d hv wv hu wu g e1 e2 e3 e4 e5 hu6 hu7 hu8 h9 h10
    rcases hu6 with rfl | rfl <;> rcases hu7 with rfl | rfl <;>
      rcases hu8 with rfl | rfl | rfl | rfl <;>
      (constructor <;>
        simp [complete_profile, e1, e2, e3, e4, e5, h9, h10, WriteResult.writtenRow])
  · intro d newId uname hv wv hu wu e1 e2 e3 e4 e5 h6 h7
    constructor <;>
      simp [create_user, e1, e2, e3, e4, e5, h6, h7, WriteResult.writtenRow]
  · intro old d h1 h2 h3 h4 h5 h6
    constructor <;>
      simp [update_user, h1, h2, h3, h4, h5, h6, WriteResult.writtenRow]
  · intro w
    simp [unrealistic]
    norm_num
  · intro h
    simp only [unrealistic, decide_eq_true_eq]
    right; right; right
    norm_num
  · simp only [unrealistic, decide_eq_false_iff_not]
    push_neg
    norm_num

/-- Stored row with a realistic profile, used by the C3 witness. -/
def w3old : UserRow :=
  { user_id := 3, username := "wit", role := "user",
    dietary_goal := some "maintain", target_calories := some 2560,
    height_value := some 170, height_unit := some "cm",
    weight_value := some 70, weight_unit := some "kg" }

/-- Own-profile payload lowering the height to 90 cm without confirmation. -/
def w3dOwn : ProfilePayload := { height_value := some (some 90) }

/-- Completion payload with 90 cm height and no confirmation. -/
def w3dComplete : CompletePayload :=
  { height_value := some 90, height_unit := some "cm",
    weight_value := some 70, weight_unit := some "kg",
    dietary_goal := some "maintain" }

/-- Admin-create payload with 90 cm height and no confirmation. -/
def w3dCreate : CreateUserPayload :=
  { username := some "eve", height_value := some 90, height_unit := some "cm",
    weight_value := some 70, weight_unit := some "kg" }

/-- Admin-update payload lowering the height to 90 cm without confirmation. -/
def w3dAdmin : AdminUpdatePayload := { height_value := some (some 90) }

/-- Witness for C3: each of the four handlers rejects a 90 cm height with
the requires-confirmation response when the guard is reached, and the three
concrete predicate facts. -/
theorem C3_unrealistic_gate_witness :
    (update_profile w3old w3dOwn = .requiresConfirmation
        (calculate_target_calories ((updProfNewRow w3old w3dOwn).height_value.getD 0)
          (updProfNewRow w3old w3dOwn).height_unit
          ((updProfNewRow w3old w3dOwn).weight_value.getD 0)
          (updProfNewRow w3old w3dOwn).weight_unit
          (updProfNewRow w3old w3dOwn).dietary_goal) ∧
      (update_profile w3old w3dOwn).writtenRow = none) ∧
    (complete_profile w3old w3dComplete = .requiresConfirmation
        (calculate_target_calories 90 (some "cm") 70 (some "kg") (some "maintain")) ∧
      (complete_profile w3old w3dComplete).writtenRow = none) ∧
    (create_user w3dCreate 42 = .requiresConfirmation
        (calculate_target_calories 90 (some "cm") 70 (some "kg")
          (some (w3dCreate.dietary_goal.getD "maintain"))) ∧
      (create_user w3dCreate 42).writtenRow = none) ∧
    (update_user w3old w3dAdmin = .requiresConfirmation
        (calculate_target_calories ((admNewRow w3old w3dAdmin).height_value.getD 0)
          (admNewRow w3old w3dAdmin).height_unit
          ((admNewRow w3old w3dAdmin).weight_value.getD 0)
          (admNewRow w3old w3dAdmin).weight_unit
          (admNewRow w3old w3dAdmin).dietary_goal) ∧
      (update_user w3old w3dAdmin).writtenRow = none) ∧
    unrealistic 90 55 = true ∧ unrealistic 180 310 = true ∧ unrealistic 170 70 = false :=
  ⟨C3_unrealistic_gate.1 w3old w3dOwn rfl
      (by simp [updProfNewRow, w3old, w3dOwn, mergeField, truthyQ])
      (by simp [updProfNewRow, w3old, w3dOwn, mergeField, truthyQ])
      (by simp [updProfNewRow, w3old, w3dOwn, mergeField, to_cm, to_kg, unrealistic]; norm_num)
      rfl,
   C3_unrealistic_gate.2.1 w3old w3dComplete 90 70 "cm" "kg" "maintain"
      rfl rfl rfl rfl rfl (Or.inl rfl) (Or.inl rfl) (Or.inr (Or.inr (Or.inl rfl)))
      (by simp [to_cm, to_kg, unrealistic]; norm_num) rfl,
   C3_unrealistic_gate.2.2.1 w3dCreate 42 "eve" 90 70 "cm" "kg"
      rfl rfl rfl rfl rfl
      (by simp [to_cm, to_kg, unrealistic]; norm_num) rfl,
   C3_unrealistic_gate.2.2.2.1 w3old w3dAdmin rfl rfl
      (by simp [admNewRow, w3old, w3dAdmin, mergeField, mergeReq, truthyQ])
      (by simp [admNewRow, w3old, w3dAdmin, mergeField, mergeReq, truthyQ])
      (by simp [admNewRow, w3old, w3dAdmin, mergeField, mergeReq, to_cm, to_kg, unrealistic]; norm_num)
      rfl,
   C3_unrealistic_gate.2.2.2.2.1 55,
   C3_unrealistic_gate.2.2.2.2.2.1 180,
   C3_unrealistic_gate.2.2.2.2.2.2⟩

/-- C7: audit_profile_change writes zero records when no tracked field
differs under the field-by-field string comparison, and otherwise exactly one
record whose changed-field map holds exactly the differing fields with their
from and to values. -/
theorem C7_audit_exact :
    ∀ (target : Nat) (actor : SessionUser) (old new : TrackedField → String),
      (changedFields old new = [] →
        audit_profile_change target actor old new = []) ∧
      (changedFields old new ≠ [] →
        audit_profile_change target actor old new =
          [{ user_id := target, changed_by_user_id := actor.user_id,
             changed_by_role := actor.role,
             changed_fields := (changedFields old new).map (fun k => (k, old k, new k)) }]) ∧
      (∀ r ∈ audit_profile_change target actor old new,
        r.changed_fields.length = (changedFields old new).length ∧
        ∀ k fr tb, ((k, fr, tb) ∈ r.changed_fields ↔
          (k ∈ trackedFields ∧ old k ≠ new k ∧ fr = old k ∧ tb = new k))) := by
  intro target actor old new
  refine ⟨?_, ?_, ?_⟩
  · intro h
    simp [audit_profile_change, h]
  · intro h
    simp [audit_profile_change, List.isEmpty_iff, h]
  · intro r hr
    by_cases hch : changedFields old new = []
    · simp [audit_profile_change, hch] at hr
    · have hr2 : r =
          { user_id := target, changed_by_user_id := actor.user_id,
            changed_by_role := actor.role,
            changed_fields := (changedFields old new).map (fun k => (k, old k, new k)) } := by
        simp [audit_profile_change, List.isEmpty_iff, hch] at hr
        exact hr
      subst hr2
      refine ⟨by simp, ?_⟩
      intro k fr tb
      simp only [List.mem_map, changedFields, List.mem_filter, decide_eq_true_eq,
        Prod.mk.injEq]
      constructor
      · rintro ⟨a, ⟨hmem, hne⟩, rfl, rfl, rfl⟩
        exact ⟨hmem, hne, rfl, rfl⟩
      · rintro ⟨hmem, hne, rfl, rfl⟩
        exact ⟨k, ⟨hmem, hne⟩, rfl, rfl, rfl⟩

/-- Acting admin for the C7 witness. -/
def w7actor : SessionUser := { user_id := 1, username := "admin", role := "admin" }

/-- Tracked-field strings of the old row for the C7 witness. -/
def w7old : TrackedField → String
  | .height_value => "170"
  | .height_unit => "cm"
  | .weight_value => "70"
  | .weight_unit => "kg"
  | .dietary_goal => "maintain"
  | .target_calories => "2560"

/-- Tracked-field strings of the new row for the C7 witness: two fields
changed. -/
def w7new : TrackedField → String
  | .height_value => "180"
  | .height_unit => "cm"
  | .weight_value => "70"
  | .weight_unit => "kg"
  | .dietary_goal => "maintain"
  | .target_calories => "2620"

/-- Witness for C7: no record on an unchanged row, one exact record on a row
with two changed fields. -/
theorem C7_audit_exact_witness :
    audit_profile_change 3 w7actor w7old w7old = [] ∧
    audit_profile_change 3 w7actor w7old w7new =
      [{ user_id := 3, changed_by_user_id := w7actor.user_id,
         changed_by_role := w7actor.role,
         changed_fields := (changedFields w7old w7new).map (fun k => (k, w7old k, w7new k)) }] :=
  ⟨(C7_audit_exact 3 w7actor w7old w7old).1 (by decide),
   (C7_audit_exact 3 w7actor w7old w7new).2.1 (by decide)⟩

/-- Evaluation helper: calculate_target_calories at an intermediate value. -/
lemma calc_target_eval (hv : ℚ) (hu : Option String) (wv : ℚ) (wu : Option String)
    (g : Option String) (r : ℚ) (n : ℤ)
    (h1 : (22 * to_kg wv wu + 6 * to_cm hv hu) * multipliers g / 10 = r)
    (h2 : pyround r = n) :
    calculate_target_calories hv hu wv wu g = max 1200 (min 4000 (10 * n)) := by
  unfold calculate_target_calories
  rw [h1, h2]

/-- Stored row with a realistic profile for the C8 scenario. -/
def c8old : UserRow :=
  { user_id := 4, username := "carol", role := "user",
    dietary_goal := some "maintain", target_calories := some 2560,
    height_value := some 170, height_unit := some "cm",
    weight_value := some 70, weight_unit := some "kg" }

/-- Own-profile payload switching the goal to weight_gain. -/
def c8payload : ProfilePayload := { dietary_goal := some (some "weight_gain") }

/-- The row that the payload writes: new goal and recomputed target 2940. -/
def c8newRow : UserRow :=
  { c8old with dietary_goal := some "weight_gain", target_calories := some 2940 }

/-- The weight_gain target for 170 cm and 70 kg is 2940. -/
lemma c8_target_eval :
    calculate_target_calories 170 (some "cm") 70 (some "kg") (some "weight_gain") = 2940 := by
  rw [calc_target_eval 170 (some "cm") 70 (some "kg") (some "weight_gain") (1472/5) 294
    (by simp [to_cm, to_kg, multipliers]; norm_num) (by norm_num [pyround])]
  norm_num

/-- 170 cm and 70 kg are not flagged as unrealistic. -/
lemma c8_not_unrealistic :
    unrealistic (to_cm 170 (some "cm")) (to_kg 70 (some "kg")) = false := by
  have h1 : to_cm 170 (some "cm") = 170 := by simp [to_cm]
  have h2 : to_kg 70 (some "kg") = 70 := by simp [to_kg]
  rw [h1, h2]
  simp only [unrealistic, decide_eq_false_iff_not]
  push_neg
  norm_num

/-- The C8 payload leads to a successful row write. -/
lemma c8_write : update_profile c8old c8payload = .written c8newRow := by
  simp [update_profile, c8old, c8payload, c8newRow, updProfNewRow, mergeField,
    truthyQ, ProfilePayload.isEmpty, c8_not_unrealistic, c8_target_eval]

/-- The write changes tracked fields (goal and target), so the audit INSERT
is attempted. -/
lemma c8_changed : (changedFields c8old.tracked c8newRow.tracked).isEmpty = false := by
  decide

/-- C8 counterexample: when the audit INSERT fails on this own-profile
update, the handler returns a 500 (after the row was already written), while
with a healthy audit it returns 200 for the same request; so an audit-write
storage failure does fail the primary request. -/
theorem C8_counterexample :
    update_profile_full c8old c8payload true = { status := 500, written := some c8newRow } ∧
    update_profile_full c8old c8payload false = { status := 200, written := some c8newRow } := by
  constructor <;> simp [update_profile_full, c8_write, c8_changed]

/-- C8 amended: bootstrap failures are swallowed (the bootstrap never raises
and the primary response is untouched), and an audit failure inside profile
completion is swallowed; but an audit failure during an own-profile update or
an admin user update propagates and turns the primary request into a 500,
after the user row has already been written. -/
theorem C8_best_effort :
    (∀ (conn : Except String AdminDB) (a d : String) (nid : Nat) (primary : FullOutcome),
        request_after_bootstrap conn a d nid primary = primary) ∧
    (∀ (e a d : String) (nid : Nat),
        ensure_admin_bootstrap (.error e) a d nid = none) ∧
    (∀ (old : UserRow) (dc : CompletePayload) (b1 b2 : Bool),
        complete_profile_full old dc b1 = complete_profile_full old dc b2) ∧
    (∀ (old : UserRow) (dp : ProfilePayload) (row : UserRow),
        update_profile old dp = .written row →
        (changedFields old.tracked row.tracked).isEmpty = false →
        update_profile_full old dp true = { status := 500, written := some row }) ∧
    (∀ (old : UserRow) (da : AdminUpdatePayload) (row : UserRow),
        update_user old da = .written row →
        (changedFields old.tracked row.tracked).isEmpty = false →
        update_user_full old da true = { status := 500, written := some row }) := by
  refine ⟨fun _ _ _ _ _ => rfl, fun _ _ _ _ => rfl, ?_, ?_, ?_⟩
  · intro old dc b1 b2
    cases h : complete_profile old dc <;> simp [complete_profile_full, h]
  · intro old dp row h1 h2
    simp [update_profile_full, h1, h2]
  · intro old da row h1 h2
    simp [update_user_full, h1, h2]

/-- Completion payload for the C8 witness. -/
def w8complete : CompletePayload :=
  { height_value := some 170, height_unit := some "cm",
    weight_value := some 70, weight_unit := some "kg",
    dietary_goal := some "weight_gain" }

/-- Admin-update payload switching the goal to weight_gain. -/
def w8admin : AdminUpdatePayload := { dietary_goal := some (some "weight_gain") }

/-- The C8 admin payload writes the same row as the own-profile payload. -/
lemma c8_admin_write : update_user c8old w8admin = .written c8newRow := by
  simp [update_user, c8old, w8admin, c8newRow, admNewRow, mergeField, mergeReq,
    truthyQ, AdminUpdatePayload.isEmpty, AdminUpdatePayload.inputsChanged,
    c8_not_unrealistic, c8_target_eval]

/-- Witness for C8 at concrete inputs: an unreachable storage bootstrap, a
completion with a failing audit, and the two propagating update paths. -/
theorem C8_best_effort_witness :
    request_after_bootstrap (.error "db down") "pwA" "pwD" 1 { status := 200, written := none } =
      { status := 200, written := none } ∧
    ensure_admin_bootstrap (.error "db down") "pwA" "pwD" 1 = none ∧
    complete_profile_full c8old w8complete true = complete_profile_full c8old w8complete false ∧
    update_profile_full c8old c8payload true = { status := 500, written := some c8newRow } ∧
    update_user_full c8old w8admin true = { status := 500, written := some c8newRow } :=
  ⟨C8_best_effort.1 (.error "db down") "pwA" "pwD" 1 { status := 200, written := none },
   C8_best_effort.2.1 "db down" "pwA" "pwD" 1,
   C8_best_effort.2.2.1 c8old w8complete true false,
   C8_best_effort.2.2.2.1 c8old c8payload c8newRow c8_write c8_changed,
   C8_best_effort.2.2.2.2 c8old w8admin c8newRow c8_admin_write c8_changed⟩

/-- C10: every row the admin create-user endpoint writes carries a NULL
password hash, and while a stored hash is NULL every login attempt with a
non-empty supplied password for that username gets the generic 401
invalid-credentials answer. -/
theorem C10_null_hash_login :
    (∀ (d : CreateUserPayload) (newId : Nat) (row : UserRow),
        create_user d newId = .written row → row.password_hash = none) ∧
    (∀ (users : List UserRow) (uname pw : String) (u : UserRow),
        pystrip uname ≠ "" → pw ≠ "" →
        users.find? (fun x => x.username = pystrip uname) = some u →
        u.password_hash = none →
        login uname pw users = .invalidCredentials) := by
  constructor
  · intro d newId row h
    unfold create_user at h
    split at h
    · exact absurd h (by simp)
    · split at h
      · split at h
        · exact absurd h (by simp)
        · rw [WriteResult.written.injEq] at h
          rw [← h]
      · exact absurd h (by simp)
  · intro users uname pw u h1 h2 hfind hnone
    simp [login, h1, h2, hfind, hnone]

/-- Realistic admin create payload for the C10 witness. -/
def w10payload : CreateUserPayload :=
  { username := some "eve", height_value := some 170, height_unit := some "cm",
    weight_value := some 70, weight_unit := some "kg" }

/-- The row the C10 payload creates: maintain defaults, target 2560, NULL
hash. -/
def w10row : UserRow :=
  { user_id := 5, username := "eve", role := "user", password_hash := none,
    dietary_goal := some "maintain", target_calories := some 2560,
    height_value := some 170, height_unit := some "cm",
    weight_value := some 70, weight_unit := some "kg" }

/-- The maintain target for 170 cm and 70 kg is 2560. -/
lemma w10_target_eval :
    calculate_target_calories 170 (some "cm") 70 (some "kg") (some "maintain") = 2560 := by
  rw [calc_target_eval 170 (some "cm") 70 (some "kg") (some "maintain") 256 256
    (by simp [to_cm, to_kg, multipliers]; norm_num) (by norm_num [pyround])]
  norm_num

/-- The C10 payload creates exactly w10row. -/
lemma w10_create_eq : create_user w10payload 5 = .written w10row := by
  simp [create_user, w10payload, w10row, c8_not_unrealistic, w10_target_eval]

/-- Witness for C10: the created row has a NULL hash and a concrete login
attempt against it is answered with the generic 401. -/
theorem C10_null_hash_login_witness :
    w10row.password_hash = none ∧
    login "eve" "secret123" [w10row] = .invalidCredentials :=
  ⟨C10_null_hash_login.1 w10payload 5 w10row w10_create_eq,
   C10_null_hash_login.2 [w10row] "eve" "secret123" w10row (by decide) (by decide)
     (by decide) rfl⟩
